import Mathlib

/-!
Verification of the token-lifecycle and batch-account-management core of a
server-side identity administration library (Firebase Admin Auth).  The
definitions below are a shallow embedding of `BaseAuthImpl`,
`TenantAwareAuthImpl` (auth module) and `TenantUtils` /
`validateTestPhoneNumbers` (tenant-internal.ts).  Machine numbers are
modelled as `Int`, JavaScript values passed through untyped positions as the
`JsValue` inductive, fallible operations as `Except`, and the Account
Directory collaborator as a record of response functions.  Every operation
additionally returns the list of directory RPCs it issued, so that
"no network call" properties are expressible.
-/

namespace FirebaseAdminAuth

/-- Error codes from AuthClientErrorCode used by the embedded operations. -/
inductive ErrorCode where
  | INVALID_ARGUMENT
  | INTERNAL_ERROR
  | MISMATCHING_TENANT_ID
  | ID_TOKEN_REVOKED
  | SESSION_COOKIE_REVOKED
  | INVALID_PROVIDER_ID
  | INVALID_CONFIG
  | INVALID_SESSION_COOKIE_DURATION
  | USER_NOT_DISABLED
  | INVALID_ID_TOKEN
  | MAXIMUM_TEST_PHONE_NUMBER_EXCEEDED
  | INVALID_TESTING_PHONE_NUMBER
  deriving DecidableEq, Repr

/-- FirebaseAuthError: an error code plus the optional message it carries. -/
structure FirebaseAuthError where
  code : ErrorCode
  message : Option String
  deriving DecidableEq, Repr

/-- The decoded claims of a verified JWT.  `firebase_tenant` models the
optional `firebase.tenant` claim (`none` when the claim is absent). -/
structure DecodedIdToken where
  sub : String
  auth_time : Int
  firebase_tenant : Option String
  deriving DecidableEq, Repr

/-- One entry of `UserRecord.providerData`. -/
structure UserInfo where
  providerId : String
  uid : String
  deriving DecidableEq, Repr

/-- The public account record.  `tokensValidAfterTime` is the parsed
milliseconds-UTC cutoff (`none` when the account has no such field). -/
structure UserRecord where
  uid : String
  email : Option String
  phoneNumber : Option String
  providerData : List UserInfo
  tokensValidAfterTime : Option Int
  deriving DecidableEq, Repr

/-- The closed union of user identifiers accepted by getUsers. -/
inductive UserIdentifier where
  | uid (u : String)
  | email (e : String)
  | phone (phoneNumber : String)
  | provider (providerId : String) (providerUid : String)
  deriving DecidableEq, Repr

/-- One entry of the error list in a BatchDeleteAccountsResponse; both the
index and the message may be absent in the wire response. -/
structure BatchDeleteErrorInfo where
  index : Option Nat
  message : Option String
  deriving DecidableEq, Repr

/-- The directory response to deleteAccounts (an absent error list is
modelled as the empty list). -/
structure BatchDeleteAccountsResponse where
  errors : List BatchDeleteErrorInfo
  deriving DecidableEq, Repr

/-- Result shape of getUsers. -/
structure GetUsersResult where
  users : List UserRecord
  notFound : List UserIdentifier
  deriving DecidableEq, Repr

/-- Result shape of deleteUsers.  The counts are JavaScript numbers computed
by subtraction, hence `Int`. -/
structure DeleteUsersResult where
  failureCount : Int
  successCount : Int
  errors : List (Nat × FirebaseAuthError)
  deriving DecidableEq, Repr

/-- Untyped JavaScript values, as far as the embedded validators inspect
them. -/
inductive JsValue where
  | undefined
  | null
  | boolean (b : Bool)
  | number (n : Int)
  | str (s : String)
  | object (fields : List (String × JsValue))

/-- Property read `v[key]`: `undefined` when missing or not an object. -/
def JsValue.get (v : JsValue) (key : String) : JsValue :=
  match v with
  | .object fields =>
    match fields.find? (fun kv => kv.1 == key) with
    | some kv => kv.2
    | none => .undefined
  | _ => .undefined

/-- Discriminator for the `undefined` value. -/
def JsValue.isUndefined : JsValue → Bool
  | .undefined => true
  | _ => false

/-- Discriminator for the `null` value. -/
def JsValue.isNull : JsValue → Bool
  | .null => true
  | _ => false

/-- Modelled from the spec: `validator.isNonNullObject` (utils/validator.ts
is not among the embedded sources) — true exactly for non-null objects. -/
def isNonNullObject : JsValue → Bool
  | .object _ => true
  | _ => false

/-- Modelled from the spec: `validator.isNumber` (utils/validator.ts is not
among the embedded sources) — true exactly for numbers. -/
def isNumber : JsValue → Bool
  | .number _ => true
  | _ => false

/-- Modelled from the spec: `validator.isNonEmptyString` (utils/validator.ts
is not among the embedded sources) — true exactly for non-empty strings. -/
def isNonEmptyString : JsValue → Bool
  | .str s => !(s == "")
  | _ => false

/-- The directory RPCs the embedded operations can issue. -/
inductive DirCall where
  | getAccountByUid (uid : String)
  | getAccountsByIdentifiers (identifiers : List UserIdentifier)
  | deleteAccounts (uids : List String) (force : Bool)
  | mintSessionCookie (idToken : String) (expiresIn : Int)
  | createOAuthIdpConfig (config : JsValue)
  | createInboundSamlConfig (config : JsValue)
  | updateOAuthIdpConfig (providerId : String) (config : JsValue)
  | updateInboundSamlConfig (providerId : String) (config : JsValue)

/-- The Account Directory collaborator: the response each RPC would
return. -/
structure AccountDirectory where
  getAccountByUidRPC : String → Except FirebaseAuthError UserRecord
  getAccountsByIdentifiersRPC :
    List UserIdentifier → Except FirebaseAuthError (List UserRecord)
  deleteAccountsRPC :
    List String → Bool → Except FirebaseAuthError BatchDeleteAccountsResponse
  createSessionCookieRPC : String → Int → Except FirebaseAuthError String
  createOAuthIdpConfigRPC : JsValue → Except FirebaseAuthError JsValue
  createInboundSamlConfigRPC : JsValue → Except FirebaseAuthError JsValue
  updateOAuthIdpConfigRPC : String → JsValue → Except FirebaseAuthError JsValue
  updateInboundSamlConfigRPC : String → JsValue → Except FirebaseAuthError JsValue

/-- One Auth instance: its two token verifier collaborators and its
directory. -/
structure AuthInstance where
  idTokenVerifier : String → Except FirebaseAuthError DecodedIdToken
  sessionCookieVerifier : String → Except FirebaseAuthError DecodedIdToken
  directory : AccountDirectory

/-- Modelled from the spec: the request handler batch-lookup gate
(`AbstractAuthRequestHandler.getAccountInfoByIdentifiers`, auth-api-request.ts,
is not among the embedded sources): "Identifier list length for batch lookup
≤ 100 ... enforced before any network call". -/
def getAccountInfoByIdentifiers (dir : AccountDirectory)
    (identifiers : List UserIdentifier) :
    Except FirebaseAuthError (List UserRecord) × List DirCall :=
  if identifiers.length > 100 then
    (.error ⟨.INVALID_ARGUMENT,
      some "`identifiers` parameter must have <= 100 entries."⟩, [])
  else
    (dir.getAccountsByIdentifiersRPC identifiers,
     [.getAccountsByIdentifiers identifiers])

/-- Modelled from the spec: the request handler batch-delete gate
(`AbstractAuthRequestHandler.deleteAccounts`, auth-api-request.ts, is not
among the embedded sources): "Precondition, enforced before any network
call: 0 < len(requestedUids) ≤ 1000, else INVALID_ARGUMENT". -/
def deleteAccountsHandler (dir : AccountDirectory) (uids : List String)
    (force : Bool) :
    Except FirebaseAuthError BatchDeleteAccountsResponse × List DirCall :=
  if uids.length = 0 ∨ uids.length > 1000 then
    (.error ⟨.INVALID_ARGUMENT,
      some "`uids` parameter must have <= 1000 entries."⟩, [])
  else
    (dir.deleteAccountsRPC uids force, [.deleteAccounts uids force])

/-- BaseAuthImpl.getUser: fetch the account record for a uid (the
marshalling of `response.users[0]` into a UserRecord is folded into the
directory response). -/
def getUser (a : AuthInstance) (uid : String) :
    Except FirebaseAuthError UserRecord × List DirCall :=
  (a.directory.getAccountByUidRPC uid, [.getAccountByUid uid])

/-- BaseAuthImpl.verifyDecodedJWTNotRevoked: fetch the subject account record; if
it carries a tokensValidAfterTime cutoff and the token auth_time (in
milliseconds) is strictly older, fail with the configured revocation
error, else return the decoded token. -/
def verifyDecodedJWTNotRevoked (a : AuthInstance)
    (decodedIdToken : DecodedIdToken) (revocationError : ErrorCode) :
    Except FirebaseAuthError DecodedIdToken × List DirCall :=
  match getUser a decodedIdToken.sub with
  | (.error e, calls) => (.error e, calls)
  | (.ok user, calls) =>
    match user.tokensValidAfterTime with
    | some validSinceUtc =>
      if decodedIdToken.auth_time * 1000 < validSinceUtc then
        (.error ⟨revocationError, none⟩, calls)
      else
        (.ok decodedIdToken, calls)
    | none => (.ok decodedIdToken, calls)

/-- BaseAuthImpl.verifyIdToken: local decode first; the revocation check is
performed only when `checkRevoked` is true. -/
def verifyIdToken (a : AuthInstance) (idToken : String)
    (checkRevoked : Bool) :
    Except FirebaseAuthError DecodedIdToken × List DirCall :=
  match a.idTokenVerifier idToken with
  | .error e => (.error e, [])
  | .ok decodedIdToken =>
    if !checkRevoked then
      (.ok decodedIdToken, [])
    else
      verifyDecodedJWTNotRevoked a decodedIdToken .ID_TOKEN_REVOKED

/-- BaseAuthImpl.verifySessionCookie: same orchestration as verifyIdToken
with the session-cookie verifier and revocation error. -/
def verifySessionCookie (a : AuthInstance) (sessionCookie : String)
    (checkRevoked : Bool) :
    Except FirebaseAuthError DecodedIdToken × List DirCall :=
  match a.sessionCookieVerifier sessionCookie with
  | .error e => (.error e, [])
  | .ok decodedIdToken =>
    if !checkRevoked then
      (.ok decodedIdToken, [])
    else
      verifyDecodedJWTNotRevoked a decodedIdToken .SESSION_COOKIE_REVOKED

/-- BaseAuthImpl.createSessionCookie: reject a missing or non-numeric
`expiresIn` before asking the directory to mint the cookie. -/
def createSessionCookie (a : AuthInstance) (idToken : String)
    (sessionCookieOptions : JsValue) :
    Except FirebaseAuthError String × List DirCall :=
  if isNonNullObject sessionCookieOptions then
    match JsValue.get sessionCookieOptions "expiresIn" with
    | .number expiresIn =>
      (a.directory.createSessionCookieRPC idToken expiresIn,
       [.mintSessionCookie idToken expiresIn])
    | _ => (.error ⟨.INVALID_SESSION_COOKIE_DURATION, none⟩, [])
  else
    (.error ⟨.INVALID_SESSION_COOKIE_DURATION, none⟩, [])

/-- TenantAwareAuthImpl.verifyIdToken: base verification and then the
tenant-claim check (`decodedClaims.firebase.tenant !== this.tenantId`). -/
def tenantVerifyIdToken (a : AuthInstance) (tenantId : String)
    (idToken : String) (checkRevoked : Bool) :
    Except FirebaseAuthError DecodedIdToken × List DirCall :=
  match verifyIdToken a idToken checkRevoked with
  | (.error e, calls) => (.error e, calls)
  | (.ok decodedClaims, calls) =>
    if decodedClaims.firebase_tenant ≠ some tenantId then
      (.error ⟨.MISMATCHING_TENANT_ID, none⟩, calls)
    else
      (.ok decodedClaims, calls)

/-- TenantAwareAuthImpl.verifySessionCookie: base verification and then the
tenant-claim check. -/
def tenantVerifySessionCookie (a : AuthInstance) (tenantId : String)
    (sessionCookie : String) (checkRevoked : Bool) :
    Except FirebaseAuthError DecodedIdToken × List DirCall :=
  match verifySessionCookie a sessionCookie checkRevoked with
  | (.error e, calls) => (.error e, calls)
  | (.ok decodedClaims, calls) =>
    if decodedClaims.firebase_tenant ≠ some tenantId then
      (.error ⟨.MISMATCHING_TENANT_ID, none⟩, calls)
    else
      (.ok decodedClaims, calls)

/-- TenantAwareAuthImpl.createSessionCookie: validates the id token string
and the options, verifies the id token through the tenant-checked path, and
only then delegates to the base method. -/
def tenantCreateSessionCookie (a : AuthInstance) (tenantId : String)
    (idToken : String) (sessionCookieOptions : JsValue) :
    Except FirebaseAuthError String × List DirCall :=
  if idToken = "" then
    (.error ⟨.INVALID_ID_TOKEN, none⟩, [])
  else if !(isNonNullObject sessionCookieOptions) ||
      !(isNumber (JsValue.get sessionCookieOptions "expiresIn")) then
    (.error ⟨.INVALID_SESSION_COOKIE_DURATION, none⟩, [])
  else
    match tenantVerifyIdToken a tenantId idToken false with
    | (.error e, calls) => (.error e, calls)
    | (.ok _, calls) =>
      match createSessionCookie a idToken sessionCookieOptions with
      | (r, calls2) => (r, calls ++ calls2)

/-- The inner matching predicate of BaseAuthImpl.getUsers (`isUserFound`):
an identifier is found when some returned record satisfies it; a provider
identifier is compared against the first providerData entry whose
providerId equals that of the identifier. -/
def isUserFound (id : UserIdentifier) (userRecords : List UserRecord) : Bool :=
  userRecords.any fun userRecord =>
    match id with
    | .uid u => u == userRecord.uid
    | .email e => some e == userRecord.email
    | .phone p => some p == userRecord.phoneNumber
    | .provider providerId providerUid =>
      match userRecord.providerData.find?
          (fun userInfo => providerId == userInfo.providerId) with
      | some matchingUserInfo => providerUid == matchingUserInfo.uid
      | none => false

/-- BaseAuthImpl.getUsers: one batch lookup RPC, then the local found /
not-found partition. -/
def getUsers (a : AuthInstance) (identifiers : List UserIdentifier) :
    Except FirebaseAuthError GetUsersResult × List DirCall :=
  match getAccountInfoByIdentifiers a.directory identifiers with
  | (.error e, calls) => (.error e, calls)
  | (.ok users, calls) =>
    (.ok { users := users,
           notFound :=
             identifiers.filter (fun id => !(isUserFound id users)) },
     calls)

/-- The per-entry error translation inside BaseAuthImpl.deleteUsers
(`errMsgToError`): a message prefixed NOT_DISABLED maps to
USER_NOT_DISABLED, anything else to INTERNAL_ERROR carrying the raw
message. -/
def errMsgToError (batchDeleteErrorInfo : BatchDeleteErrorInfo) :
    FirebaseAuthError :=
  let code :=
    match batchDeleteErrorInfo.message with
    | some msg =>
      if msg.startsWith "NOT_DISABLED" then ErrorCode.USER_NOT_DISABLED
      else ErrorCode.INTERNAL_ERROR
    | none => ErrorCode.INTERNAL_ERROR
  ⟨code, batchDeleteErrorInfo.message⟩

/-- The error-list mapping inside BaseAuthImpl.deleteUsers: an entry with an
undefined index aborts the whole mapping with INTERNAL_ERROR. -/
def mapBatchDeleteErrors :
    List BatchDeleteErrorInfo →
    Except FirebaseAuthError (List (Nat × FirebaseAuthError))
  | [] => .ok []
  | info :: rest =>
    match info.index with
    | none =>
      .error ⟨.INTERNAL_ERROR,
        some "Corrupt BatchDeleteAccountsResponse detected"⟩
    | some i =>
      match mapBatchDeleteErrors rest with
      | .error e => .error e
      | .ok tail => .ok ((i, errMsgToError info) :: tail)

/-- BaseAuthImpl.deleteUsers: one forced batch-delete RPC, then the local
aggregation of the per-index directory errors. -/
def deleteUsers (a : AuthInstance) (uids : List String) :
    Except FirebaseAuthError DeleteUsersResult × List DirCall :=
  match deleteAccountsHandler a.directory uids true with
  | (.error e, calls) => (.error e, calls)
  | (.ok batchDeleteAccountsResponse, calls) =>
    if batchDeleteAccountsResponse.errors.isEmpty then
      (.ok { failureCount := 0, successCount := (uids.length : Int),
             errors := [] }, calls)
    else
      match mapBatchDeleteErrors batchDeleteAccountsResponse.errors with
      | .error e => (.error e, calls)
      | .ok errs =>
        (.ok { failureCount := (batchDeleteAccountsResponse.errors.length : Int),
               successCount :=
                 (uids.length : Int) -
                   (batchDeleteAccountsResponse.errors.length : Int),
               errors := errs }, calls)

/-- Modelled from the spec: `OIDCConfig.isProviderId`
(auth-config-internal.ts is not among the embedded sources) — a provider id
is OIDC when it is a non-empty string with prefix "oidc.". -/
def isOidcProviderId (v : JsValue) : Bool :=
  match v with
  | .str s => !(s == "") && s.startsWith "oidc."
  | _ => false

/-- Modelled from the spec: `SAMLConfig.isProviderId`
(auth-config-internal.ts is not among the embedded sources) — a provider id
is SAML when it is a non-empty string with prefix "saml.". -/
def isSamlProviderId (v : JsValue) : Bool :=
  match v with
  | .str s => !(s == "") && s.startsWith "saml."
  | _ => false

/-- BaseAuthImpl.updateProviderConfig: a missing or non-object configuration
is rejected with INVALID_CONFIG before the provider id is classified. -/
def updateProviderConfig (a : AuthInstance) (providerId : String)
    (updatedConfig : JsValue) :
    Except FirebaseAuthError JsValue × List DirCall :=
  if !(isNonNullObject updatedConfig) then
    (.error ⟨.INVALID_CONFIG,
      some "Request is missing \"UpdateAuthProviderRequest\" configuration."⟩,
     [])
  else if isOidcProviderId (.str providerId) then
    (a.directory.updateOAuthIdpConfigRPC providerId updatedConfig,
     [.updateOAuthIdpConfig providerId updatedConfig])
  else if isSamlProviderId (.str providerId) then
    (a.directory.updateInboundSamlConfigRPC providerId updatedConfig,
     [.updateInboundSamlConfig providerId updatedConfig])
  else
    (.error ⟨.INVALID_PROVIDER_ID, none⟩, [])

/-- BaseAuthImpl.createProviderConfig: a missing or non-object configuration
is rejected with INVALID_CONFIG before `config.providerId` is classified. -/
def createProviderConfig (a : AuthInstance) (config : JsValue) :
    Except FirebaseAuthError JsValue × List DirCall :=
  if !(isNonNullObject config) then
    (.error ⟨.INVALID_CONFIG,
      some "Request is missing \"AuthProviderConfig\" configuration."⟩, [])
  else if isOidcProviderId (JsValue.get config "providerId") then
    (a.directory.createOAuthIdpConfigRPC config, [.createOAuthIdpConfig config])
  else if isSamlProviderId (JsValue.get config "providerId") then
    (a.directory.createInboundSamlConfigRPC config,
     [.createInboundSamlConfig config])
  else
    (.error ⟨.INVALID_PROVIDER_ID, none⟩, [])

/-- A maximum of 10 test phone number / code pairs can be configured. -/
def MAXIMUM_TEST_PHONE_NUMBERS : Nat := 10

/-- Modelled from the spec: `validator.isObject` (utils/validator.ts is not
among the embedded sources) — per §4.8 the test-phone input "must be a
plain string-to-string map", so only objects qualify. -/
def isObjectV : JsValue → Bool
  | .object _ => true
  | _ => false

/-- The /^[\d]\x7b6\x7d$/ test of tenant-internal.ts: a string value of
exactly six decimal digits. -/
def isSixDigitCode : JsValue → Bool
  | .str s => s.length == 6 && s.data.all Char.isDigit
  | _ => false

/-- Rough rendering of a JsValue into the error-message position (JavaScript
template-string coercion). -/
def jsDisplay : JsValue → String
  | .undefined => "undefined"
  | .null => "null"
  | .boolean b => if b then "true" else "false"
  | .number n => toString n
  | .str s => s
  | .object _ => "[object Object]"

/-- The entry loop of validateTestPhoneNumbers: each key must satisfy the
phone-number validator, each value must be a six-digit code string.
`isPhoneNumber` abstracts `validator.isPhoneNumber` (utils/validator.ts is
not among the embedded sources). -/
def validateTestPhoneEntries (isPhoneNumber : String → Bool) :
    List (String × JsValue) → Except FirebaseAuthError Unit
  | [] => .ok ()
  | (phoneNumber, code) :: rest =>
    if !(isPhoneNumber phoneNumber) then
      .error ⟨.INVALID_TESTING_PHONE_NUMBER,
        some ("\"" ++ phoneNumber ++
          "\" is not a valid E.164 standard compliant phone number.")⟩
    else if !(isSixDigitCode code) then
      .error ⟨.INVALID_TESTING_PHONE_NUMBER,
        some ("\"" ++ jsDisplay code ++
          "\" is not a valid 6 digit code string.")⟩
    else
      validateTestPhoneEntries isPhoneNumber rest

/-- validateTestPhoneNumbers from tenant-internal.ts: the input must be a
map with at most MAXIMUM_TEST_PHONE_NUMBERS entries whose keys are E.164
phone numbers and whose values are six-digit code strings. -/
def validateTestPhoneNumbers (isPhoneNumber : String → Bool)
    (testPhoneNumbers : JsValue) : Except FirebaseAuthError Unit :=
  match testPhoneNumbers with
  | .object entries =>
    if entries.length > MAXIMUM_TEST_PHONE_NUMBERS then
      .error ⟨.MAXIMUM_TEST_PHONE_NUMBER_EXCEEDED, none⟩
    else
      validateTestPhoneEntries isPhoneNumber entries
  | _ =>
    .error ⟨.INVALID_ARGUMENT,
      some "\"testPhoneNumbers\" must be a map of phone number / code pairs."⟩

/-- The external collaborators TenantUtils.validate delegates to: the
EmailSignInConfig and MultiFactorAuthConfig translators
(auth-config-internal.ts) and validator.isPhoneNumber, none of which are
among the embedded sources; each translator raises on malformed shape. -/
structure TenantConfigTranslators where
  emailSignInBuildServerRequest : JsValue → Except FirebaseAuthError Unit
  multiFactorBuildServerRequest : JsValue → Except FirebaseAuthError Unit
  isPhoneNumber : String → Bool

/-- The own keys of the validKeys object literal in TenantUtils.validate. -/
def tenantValidKeys : List String :=
  ["displayName", "emailSignInConfig", "multiFactorConfig", "testPhoneNumbers"]

/-- The property names of Object.prototype.  The source tests
`key in validKeys` with the JavaScript `in` operator, which walks the
prototype chain of the validKeys object literal, so any key named after an
Object.prototype member also passes the test. -/
def objectPrototypeKeys : List String :=
  ["constructor", "hasOwnProperty", "isPrototypeOf", "propertyIsEnumerable",
   "toLocaleString", "toString", "valueOf", "__defineGetter__",
   "__defineSetter__", "__lookupGetter__", "__lookupSetter__", "__proto__"]

/-- The `key in validKeys` test of TenantUtils.validate: true when the key
is an own key of the validKeys literal or a property name inherited from
Object.prototype. -/
def inValidKeys (key : String) : Bool :=
  tenantValidKeys.contains key || objectPrototypeKeys.contains key

/-- The request label used in TenantUtils.validate error messages. -/
def tenantLabel (createRequest : Bool) : String :=
  if createRequest then "CreateTenantRequest" else "UpdateTenantRequest"

/-- TenantUtils.validate from tenant-internal.ts: non-object rejection,
top-level key test (`key in validKeys`, with prototype-chain semantics),
displayName shape, delegated emailSignInConfig, testPhoneNumbers (null only
allowed on update), delegated multiFactorConfig — in source order. -/
def tenantValidate (tr : TenantConfigTranslators) (request : JsValue)
    (createRequest : Bool) : Except FirebaseAuthError Unit :=
  let label := tenantLabel createRequest
  match request with
  | .object fields =>
    match fields.find? (fun kv => !(inValidKeys kv.1)) with
    | some kv =>
      .error ⟨.INVALID_ARGUMENT,
        some ("\"" ++ kv.1 ++ "\" is not a valid " ++ label ++ " parameter.")⟩
    | none =>
      let displayName := JsValue.get (.object fields) "displayName"
      if !(displayName.isUndefined) && !(isNonEmptyString displayName) then
        .error ⟨.INVALID_ARGUMENT,
          some ("\"" ++ label ++ ".displayName\" must be a valid non-empty string.")⟩
      else
        let emailSignInConfig := JsValue.get (.object fields) "emailSignInConfig"
        match (if emailSignInConfig.isUndefined then Except.ok ()
               else tr.emailSignInBuildServerRequest emailSignInConfig) with
        | .error e => .error e
        | .ok _ =>
          let testPhoneNumbers := JsValue.get (.object fields) "testPhoneNumbers"
          match (if !(testPhoneNumbers.isUndefined) && !(testPhoneNumbers.isNull) then
                   validateTestPhoneNumbers tr.isPhoneNumber testPhoneNumbers
                 else if testPhoneNumbers.isNull && createRequest then
                   Except.error ⟨ErrorCode.INVALID_ARGUMENT,
                     some ("\"" ++ label ++ ".testPhoneNumbers\" must be a non-null object.")⟩
                 else Except.ok ()) with
          | .error e => .error e
          | .ok _ =>
            let multiFactorConfig := JsValue.get (.object fields) "multiFactorConfig"
            if multiFactorConfig.isUndefined then .ok ()
            else tr.multiFactorBuildServerRequest multiFactorConfig
  | _ =>
    .error ⟨.INVALID_ARGUMENT,
      some ("\"" ++ label ++ "\" must be a valid non-null object.")⟩

/-- The revocation condition of verifyDecodedJWTNotRevoked: the account
carries a cutoff and the token auth_time in milliseconds is strictly
older. -/
def revocationCheckFails (user : UserRecord)
    (decodedIdToken : DecodedIdToken) : Bool :=
  match user.tokensValidAfterTime with
  | some validSinceUtc => decide (decodedIdToken.auth_time * 1000 < validSinceUtc)
  | none => false

/-- A placeholder error for collaborator responses a scenario never uses. -/
def errUnused : FirebaseAuthError := ⟨.INTERNAL_ERROR, some "unused"⟩

/-- A directory that answers every RPC with a placeholder error. -/
def emptyDirectory : AccountDirectory where
  getAccountByUidRPC := fun _ => .error errUnused
  getAccountsByIdentifiersRPC := fun _ => .error errUnused
  deleteAccountsRPC := fun _ _ => .error errUnused
  createSessionCookieRPC := fun _ _ => .ok "cookie"
  createOAuthIdpConfigRPC := fun _ => .error errUnused
  createInboundSamlConfigRPC := fun _ => .error errUnused
  updateOAuthIdpConfigRPC := fun _ _ => .error errUnused
  updateInboundSamlConfigRPC := fun _ _ => .error errUnused

/-- An instance whose verifiers reject everything, over emptyDirectory. -/
def baseInstance : AuthInstance where
  idTokenVerifier := fun _ => .error errUnused
  sessionCookieVerifier := fun _ => .error errUnused
  directory := emptyDirectory

theorem verifyIdToken_false_eq (a : AuthInstance) (idToken : String) :
    verifyIdToken a idToken false = (a.idTokenVerifier idToken, []) := by
  unfold verifyIdToken
  cases hv : a.idTokenVerifier idToken <;> simp

theorem verifySessionCookie_false_eq (a : AuthInstance)
    (sessionCookie : String) :
    verifySessionCookie a sessionCookie false =
      (a.sessionCookieVerifier sessionCookie, []) := by
  unfold verifySessionCookie
  cases hv : a.sessionCookieVerifier sessionCookie <;> simp

theorem tenantVerifyIdToken_mismatch_of_base_ok (a : AuthInstance)
    (tenantId idToken : String) (checkRevoked : Bool) (d : DecodedIdToken)
    (hok : (verifyIdToken a idToken checkRevoked).1 = .ok d)
    (hmt : d.firebase_tenant ≠ some tenantId) :
    (tenantVerifyIdToken a tenantId idToken checkRevoked).1 =
      .error ⟨.MISMATCHING_TENANT_ID, none⟩ := by
  unfold tenantVerifyIdToken
  cases hv : verifyIdToken a idToken checkRevoked with
  | mk r calls =>
    rw [hv] at hok
    simp only at hok
    subst hok
    simp [hmt]

theorem tenantVerifySessionCookie_mismatch_of_base_ok (a : AuthInstance)
    (tenantId sessionCookie : String) (checkRevoked : Bool)
    (d : DecodedIdToken)
    (hok : (verifySessionCookie a sessionCookie checkRevoked).1 = .ok d)
    (hmt : d.firebase_tenant ≠ some tenantId) :
    (tenantVerifySessionCookie a tenantId sessionCookie checkRevoked).1 =
      .error ⟨.MISMATCHING_TENANT_ID, none⟩ := by
  unfold tenantVerifySessionCookie
  cases hv : verifySessionCookie a sessionCookie checkRevoked with
  | mk r calls =>
    rw [hv] at hok
    simp only at hok
    subst hok
    simp [hmt]

theorem tenantVerifyIdToken_ok_tenant (a : AuthInstance)
    (tenantId idToken : String) (checkRevoked : Bool) (d : DecodedIdToken)
    (hok : (tenantVerifyIdToken a tenantId idToken checkRevoked).1 = .ok d) :
    d.firebase_tenant = some tenantId := by
  unfold tenantVerifyIdToken at hok
  cases hv : verifyIdToken a idToken checkRevoked with
  | mk r calls =>
    rw [hv] at hok
    cases r with
    | error e => simp at hok
    | ok dc =>
      by_cases h : dc.firebase_tenant = some tenantId
      · simp [h] at hok
        rw [← hok]
        exact h
      · simp [h] at hok

theorem tenantVerifySessionCookie_ok_tenant (a : AuthInstance)
    (tenantId sessionCookie : String) (checkRevoked : Bool)
    (d : DecodedIdToken)
    (hok : (tenantVerifySessionCookie a tenantId sessionCookie checkRevoked).1 =
      .ok d) :
    d.firebase_tenant = some tenantId := by
  unfold tenantVerifySessionCookie at hok
  cases hv : verifySessionCookie a sessionCookie checkRevoked with
  | mk r calls =>
    rw [hv] at hok
    cases r with
    | error e => simp at hok
    | ok dc =>
      by_cases h : dc.firebase_tenant = some tenantId
      · simp [h] at hok
        rw [← hok]
        exact h
      · simp [h] at hok

/-- C1: for a tenant-bound instance with tenant id T, verifyIdToken and
verifySessionCookie never resolve with a decoded token whose firebase.tenant
claim differs from T: whenever base verification succeeds but the decoded
tenant claim is not T (including when absent), the call fails with
MISMATCHING_TENANT_ID. -/
theorem c1_tenant_isolation (a : AuthInstance)
    (tenantId idToken sessionCookie : String) (checkRevoked : Bool) :
    (∀ d : DecodedIdToken, (verifyIdToken a idToken checkRevoked).1 = .ok d →
      d.firebase_tenant ≠ some tenantId →
      (tenantVerifyIdToken a tenantId idToken checkRevoked).1 =
        .error ⟨.MISMATCHING_TENANT_ID, none⟩) ∧
    (∀ d : DecodedIdToken,
      (tenantVerifyIdToken a tenantId idToken checkRevoked).1 = .ok d →
      d.firebase_tenant = some tenantId) ∧
    (∀ d : DecodedIdToken,
      (verifySessionCookie a sessionCookie checkRevoked).1 = .ok d →
      d.firebase_tenant ≠ some tenantId →
      (tenantVerifySessionCookie a tenantId sessionCookie checkRevoked).1 =
        .error ⟨.MISMATCHING_TENANT_ID, none⟩) ∧
    (∀ d : DecodedIdToken,
      (tenantVerifySessionCookie a tenantId sessionCookie checkRevoked).1 =
        .ok d →
      d.firebase_tenant = some tenantId) :=
  ⟨fun d hok hmt =>
    tenantVerifyIdToken_mismatch_of_base_ok a tenantId idToken checkRevoked d hok hmt,
   fun d hok =>
    tenantVerifyIdToken_ok_tenant a tenantId idToken checkRevoked d hok,
   fun d hok hmt =>
    tenantVerifySessionCookie_mismatch_of_base_ok a tenantId sessionCookie
      checkRevoked d hok hmt,
   fun d hok =>
    tenantVerifySessionCookie_ok_tenant a tenantId sessionCookie checkRevoked
      d hok⟩

/-- A decoded token carrying tenant claim T2, and an instance whose
verifiers accept everything as that token. -/
def tokenT2 : DecodedIdToken := ⟨"user1", 100, some "T2"⟩

def instT2 : AuthInstance :=
  { baseInstance with
    idTokenVerifier := fun _ => .ok tokenT2,
    sessionCookieVerifier := fun _ => .ok tokenT2 }

/-- Witness for C1: a token with tenant claim T2 verified under tenant T1
fails with MISMATCHING_TENANT_ID. -/
theorem c1_tenant_isolation_witness :
    (tenantVerifyIdToken instT2 "T1" "tok" false).1 =
      .error ⟨.MISMATCHING_TENANT_ID, none⟩ :=
  (c1_tenant_isolation instT2 "T1" "tok" "cookie" false).1 tokenT2 rfl
    (by decide)

/-- C6: verification with checkRevoked = false issues no directory RPC and
returns exactly the local decode result, on both paths. -/
theorem c6_no_revocation_check_is_local (a : AuthInstance)
    (idToken sessionCookie : String) :
    verifyIdToken a idToken false = (a.idTokenVerifier idToken, []) ∧
    verifySessionCookie a sessionCookie false =
      (a.sessionCookieVerifier sessionCookie, []) :=
  ⟨verifyIdToken_false_eq a idToken,
   verifySessionCookie_false_eq a sessionCookie⟩

theorem verifyIdToken_true_eq (a : AuthInstance) (idToken : String)
    (d : DecodedIdToken) (hv : a.idTokenVerifier idToken = .ok d) :
    verifyIdToken a idToken true =
      verifyDecodedJWTNotRevoked a d .ID_TOKEN_REVOKED := by
  unfold verifyIdToken
  rw [hv]
  rfl

theorem verifySessionCookie_true_eq (a : AuthInstance)
    (sessionCookie : String) (d : DecodedIdToken)
    (hv : a.sessionCookieVerifier sessionCookie = .ok d) :
    verifySessionCookie a sessionCookie true =
      verifyDecodedJWTNotRevoked a d .SESSION_COOKIE_REVOKED := by
  unfold verifySessionCookie
  rw [hv]
  rfl

theorem verifyDecodedJWTNotRevoked_eq (a : AuthInstance) (d : DecodedIdToken)
    (code : ErrorCode) (user : UserRecord)
    (hdir : a.directory.getAccountByUidRPC d.sub = .ok user) :
    verifyDecodedJWTNotRevoked a d code =
      ((if revocationCheckFails user d then .error ⟨code, none⟩ else .ok d),
       [.getAccountByUid d.sub]) := by
  unfold verifyDecodedJWTNotRevoked getUser
  rw [hdir]
  cases hm : user.tokensValidAfterTime with
  | none => simp [revocationCheckFails, hm]
  | some validSinceUtc =>
    by_cases hlt : d.auth_time * 1000 < validSinceUtc <;>
      simp [revocationCheckFails, hm, hlt]

/-- C2: with checkRevoked = true and a successfully decoded token whose
account record is fetched, the call fails with the configured revocation
error exactly when the record has a tokensValidAfterTime cutoff and
auth_time * 1000 is strictly below it; otherwise the decoded token is
returned unchanged, after exactly one account fetch. -/
theorem c2_revocation_exact (a : AuthInstance) (idToken sessionCookie : String)
    (d : DecodedIdToken) (user : UserRecord)
    (hdir : a.directory.getAccountByUidRPC d.sub = .ok user) :
    (a.idTokenVerifier idToken = .ok d →
      verifyIdToken a idToken true =
        ((if revocationCheckFails user d then
            .error ⟨.ID_TOKEN_REVOKED, none⟩ else .ok d),
         [.getAccountByUid d.sub])) ∧
    (a.sessionCookieVerifier sessionCookie = .ok d →
      verifySessionCookie a sessionCookie true =
        ((if revocationCheckFails user d then
            .error ⟨.SESSION_COOKIE_REVOKED, none⟩ else .ok d),
         [.getAccountByUid d.sub])) ∧
    (user.tokensValidAfterTime = none → revocationCheckFails user d = false) ∧
    (revocationCheckFails user d = true ↔
      ∃ v, user.tokensValidAfterTime = some v ∧ d.auth_time * 1000 < v) := by
  refine ⟨?_, ?_, ?_, ?_⟩
  · intro hv
    rw [verifyIdToken_true_eq a idToken d hv,
      verifyDecodedJWTNotRevoked_eq a d .ID_TOKEN_REVOKED user hdir]
  · intro hv
    rw [verifySessionCookie_true_eq a sessionCookie d hv,
      verifyDecodedJWTNotRevoked_eq a d .SESSION_COOKIE_REVOKED user hdir]
  · intro hm
    simp [revocationCheckFails, hm]
  · cases hm : user.tokensValidAfterTime with
    | none => simp [revocationCheckFails, hm]
    | some validSinceUtc => simp [revocationCheckFails, hm]

/-- An account whose sessions were revoked at t = 500000 ms, and a token
authenticated at t = 100 s (100000 ms), hence revoked. -/
def userRevokedAt : UserRecord := ⟨"user1", none, none, [], some 500000⟩

def tokenOld : DecodedIdToken := ⟨"user1", 100, none⟩

def instRevoked : AuthInstance where
  idTokenVerifier := fun _ => .ok tokenOld
  sessionCookieVerifier := fun _ => .ok tokenOld
  directory :=
    { emptyDirectory with getAccountByUidRPC := fun _ => .ok userRevokedAt }

/-- Witness for C2: the concrete revoked token fails with
ID_TOKEN_REVOKED after one account fetch. -/
theorem c2_revocation_exact_witness :
    verifyIdToken instRevoked "tok" true =
      (.error ⟨.ID_TOKEN_REVOKED, none⟩, [.getAccountByUid "user1"]) := by
  have h :=
    (c2_revocation_exact instRevoked "tok" "cookie" tokenOld userRevokedAt
      rfl).1 rfl
  rw [h]
  rfl

theorem isNonNullObject_of_get_number (v : JsValue) (k : String) (n : Int)
    (h : JsValue.get v k = .number n) : isNonNullObject v = true := by
  cases v <;> simp [JsValue.get, isNonNullObject] at h ⊢

theorem tenantCreateSessionCookie_verify_error (a : AuthInstance)
    (tenantId idToken : String) (opts : JsValue) (n : Int)
    (e : FirebaseAuthError) (calls : List DirCall)
    (hne : idToken ≠ "")
    (hnum : JsValue.get opts "expiresIn" = .number n)
    (hv : tenantVerifyIdToken a tenantId idToken false = (.error e, calls)) :
    tenantCreateSessionCookie a tenantId idToken opts = (.error e, calls) := by
  have hobj := isNonNullObject_of_get_number opts "expiresIn" n hnum
  unfold tenantCreateSessionCookie
  rw [if_neg hne]
  simp only [hnum, hobj, isNumber, Bool.not_true, Bool.or_self,
    Bool.false_eq_true, if_false]
  rw [hv]

theorem tenantCreateSessionCookie_verify_ok (a : AuthInstance)
    (tenantId idToken : String) (opts : JsValue) (n : Int)
    (d : DecodedIdToken) (calls : List DirCall)
    (hne : idToken ≠ "")
    (hnum : JsValue.get opts "expiresIn" = .number n)
    (hv : tenantVerifyIdToken a tenantId idToken false = (.ok d, calls)) :
    tenantCreateSessionCookie a tenantId idToken opts =
      (a.directory.createSessionCookieRPC idToken n,
       calls ++ [.mintSessionCookie idToken n]) := by
  have hobj := isNonNullObject_of_get_number opts "expiresIn" n hnum
  unfold tenantCreateSessionCookie
  rw [if_neg hne]
  simp only [hnum, hobj, isNumber, Bool.not_true, Bool.or_self,
    Bool.false_eq_true, if_false]
  rw [hv]
  simp [createSessionCookie, hobj, hnum]

theorem tenantVerifyIdToken_false_mismatch_pair (a : AuthInstance)
    (tenantId idToken : String) (d : DecodedIdToken)
    (hok : a.idTokenVerifier idToken = .ok d)
    (hmt : d.firebase_tenant ≠ some tenantId) :
    tenantVerifyIdToken a tenantId idToken false =
      (.error ⟨.MISMATCHING_TENANT_ID, none⟩, []) := by
  unfold tenantVerifyIdToken
  rw [verifyIdToken_false_eq, hok]
  simp [hmt]

/-- The counterexample options object for C3: a non-null object with no
expiresIn key at all. -/
def optsEmptyObject : JsValue := .object []

/-- C3 counterexample: calling the tenant-bound createSessionCookie with an
empty idToken and options whose expiresIn is absent fails with
INVALID_ID_TOKEN before any directory call, not with
INVALID_SESSION_COOKIE_DURATION as the claim requires. -/
theorem c3_counterexample_empty_idToken :
    tenantCreateSessionCookie baseInstance "T1" "" optsEmptyObject =
      (.error ⟨.INVALID_ID_TOKEN, none⟩, []) ∧
    ErrorCode.INVALID_ID_TOKEN ≠ ErrorCode.INVALID_SESSION_COOKIE_DURATION ∧
    isNumber (JsValue.get optsEmptyObject "expiresIn") = false :=
  ⟨rfl, by decide, rfl⟩

/-- C3 (amended): for the tenant-bound createSessionCookie with a non-empty
idToken string: a missing or non-numeric options.expiresIn fails with
INVALID_SESSION_COOKIE_DURATION before any directory call; otherwise the
idToken is first verified through the tenant-checked path (so a token with
a different tenant claim fails with MISMATCHING_TENANT_ID with no directory
call) and the directory mints the cookie only after that verification
succeeds.  (An empty idToken instead fails with INVALID_ID_TOKEN before any
directory call.) -/
theorem c3_amended_tenant_create_session_cookie (a : AuthInstance)
    (tenantId idToken : String) (opts : JsValue) (hne : idToken ≠ "") :
    (isNumber (JsValue.get opts "expiresIn") = false →
      tenantCreateSessionCookie a tenantId idToken opts =
        (.error ⟨.INVALID_SESSION_COOKIE_DURATION, none⟩, [])) ∧
    (∀ (n : Int) (e : FirebaseAuthError) (calls : List DirCall),
      JsValue.get opts "expiresIn" = .number n →
      tenantVerifyIdToken a tenantId idToken false = (.error e, calls) →
      tenantCreateSessionCookie a tenantId idToken opts = (.error e, calls)) ∧
    (∀ (n : Int) (d : DecodedIdToken) (calls : List DirCall),
      JsValue.get opts "expiresIn" = .number n →
      tenantVerifyIdToken a tenantId idToken false = (.ok d, calls) →
      tenantCreateSessionCookie a tenantId idToken opts =
        (a.directory.createSessionCookieRPC idToken n,
         calls ++ [.mintSessionCookie idToken n])) ∧
    (∀ (n : Int) (d : DecodedIdToken),
      JsValue.get opts "expiresIn" = .number n →
      (verifyIdToken a idToken false).1 = .ok d →
      d.firebase_tenant ≠ some tenantId →
      tenantCreateSessionCookie a tenantId idToken opts =
        (.error ⟨.MISMATCHING_TENANT_ID, none⟩, [])) := by
  refine ⟨?_, ?_, ?_, ?_⟩
  · intro h
    unfold tenantCreateSessionCookie
    rw [if_neg hne]
    simp [h]
  · intro n e calls hnum hv
    exact tenantCreateSessionCookie_verify_error a tenantId idToken opts n e
      calls hne hnum hv
  · intro n d calls hnum hv
    exact tenantCreateSessionCookie_verify_ok a tenantId idToken opts n d
      calls hne hnum hv
  · intro n d hnum hok hmt
    rw [verifyIdToken_false_eq] at hok
    exact tenantCreateSessionCookie_verify_error a tenantId idToken opts n
      ⟨.MISMATCHING_TENANT_ID, none⟩ [] hne hnum
      (tenantVerifyIdToken_false_mismatch_pair a tenantId idToken d hok hmt)

/-- Witness for the amended C3: with a non-empty idToken and an options
object missing expiresIn, the call fails with
INVALID_SESSION_COOKIE_DURATION and no directory call. -/
theorem c3_amended_witness :
    tenantCreateSessionCookie baseInstance "T1" "t" optsEmptyObject =
      (.error ⟨.INVALID_SESSION_COOKIE_DURATION, none⟩, []) :=
  (c3_amended_tenant_create_session_cookie baseInstance "T1" "t"
    optsEmptyObject (by decide)).1 rfl

/-- C4: getUsers with more than 100 identifiers and deleteUsers with more
than 1000 uids fail with INVALID_ARGUMENT before any directory RPC. -/
theorem c4_batch_size_gates (a : AuthInstance)
    (identifiers : List UserIdentifier) (uids : List String)
    (h1 : identifiers.length > 100) (h2 : uids.length > 1000) :
    getUsers a identifiers =
      (.error ⟨.INVALID_ARGUMENT,
        some "`identifiers` parameter must have <= 100 entries."⟩, []) ∧
    deleteUsers a uids =
      (.error ⟨.INVALID_ARGUMENT,
        some "`uids` parameter must have <= 1000 entries."⟩, []) := by
  constructor
  · unfold getUsers getAccountInfoByIdentifiers
    rw [if_pos h1]
  · unfold deleteUsers deleteAccountsHandler
    rw [if_pos (Or.inr h2)]

/-- Witness for C4: 101 identifiers and 1001 uids are rejected with no
directory call. -/
theorem c4_batch_size_gates_witness :
    getUsers baseInstance (List.replicate 101 (.uid "x")) =
      (.error ⟨.INVALID_ARGUMENT,
        some "`identifiers` parameter must have <= 100 entries."⟩, []) ∧
    deleteUsers baseInstance (List.replicate 1001 "x") =
      (.error ⟨.INVALID_ARGUMENT,
        some "`uids` parameter must have <= 1000 entries."⟩, []) :=
  c4_batch_size_gates baseInstance (List.replicate 101 (.uid "x"))
    (List.replicate 1001 "x")
    (by rw [List.length_replicate]; omega)
    (by rw [List.length_replicate]; omega)

/-- The matching rule of the amended C5, written from the words of the amended
claim: Uid / Email / Phone match by field equality; a ProviderLink matches a
record when the first providerData entry whose providerId equals the
identifier (if any) carries the providerUid of the identifier. -/
def amendedIdentifierFound (id : UserIdentifier)
    (users : List UserRecord) : Bool :=
  match id with
  | .uid u => users.any fun r => u == r.uid
  | .email e => users.any fun r => some e == r.email
  | .phone p => users.any fun r => some p == r.phoneNumber
  | .provider providerId providerUid => users.any fun r =>
      some providerUid ==
        (r.providerData.find? fun userInfo =>
          providerId == userInfo.providerId).map UserInfo.uid

theorem isUserFound_eq_amended (id : UserIdentifier)
    (users : List UserRecord) :
    isUserFound id users = amendedIdentifierFound id users := by
  cases id with
  | uid u => rfl
  | email e => rfl
  | phone p => rfl
  | provider providerId providerUid =>
    unfold isUserFound amendedIdentifierFound
    congr 1
    funext r
    show (match r.providerData.find?
          (fun userInfo => providerId == userInfo.providerId) with
        | some matchingUserInfo => providerUid == matchingUserInfo.uid
        | none => false) =
      (some providerUid ==
        (r.providerData.find? fun userInfo =>
          providerId == userInfo.providerId).map UserInfo.uid)
    cases hf : r.providerData.find?
        (fun userInfo => providerId == userInfo.providerId) with
    | none => rfl
    | some matchingUserInfo => rfl

/-- An account carrying two providerData entries for the same providerId;
only the first is consulted by the source matcher. -/
def acctDupProvider : UserRecord :=
  ⟨"u", none, none, [⟨"p", "u1"⟩, ⟨"p", "u2"⟩], none⟩

def instDupProvider : AuthInstance :=
  { baseInstance with
    directory := { emptyDirectory with
      getAccountsByIdentifiersRPC := fun _ => .ok [acctDupProvider] } }

/-- C5 counterexample: the returned account has a provider entry with equal
providerId and providerUid ("p", "u2"), yet the identifier lands in
notFound, because the source compares only the first entry whose providerId
matches. -/
theorem c5_counterexample_provider_shadowing :
    (getUsers instDupProvider [.provider "p" "u2"]).1 =
      .ok { users := [acctDupProvider],
            notFound := [.provider "p" "u2"] } ∧
    (⟨"p", "u2"⟩ : UserInfo) ∈ acctDupProvider.providerData :=
  ⟨rfl, by decide⟩

/-- C5 (amended): for every identifier list (within the batch limit) and
every directory response, getUsers resolves with users equal to the full
returned account set (not filtered, not reordered) and notFound equal to
exactly the requested identifiers matched by no returned account, where Uid
/ Email / Phone match by field equality and a ProviderLink matches when the
first provider entry with equal providerId (if any) has equal
providerUid. -/
theorem c5_amended_getUsers_partition (a : AuthInstance)
    (identifiers : List UserIdentifier) (users : List UserRecord)
    (hlen : identifiers.length ≤ 100)
    (hdir : a.directory.getAccountsByIdentifiersRPC identifiers = .ok users) :
    (getUsers a identifiers).1 =
      .ok { users := users,
            notFound := identifiers.filter
              (fun id => !(amendedIdentifierFound id users)) } := by
  unfold getUsers getAccountInfoByIdentifiers
  rw [if_neg (by omega)]
  rw [hdir]
  simp [isUserFound_eq_amended]

/-- Witness for the amended C5: one Uid identifier matched by the returned
account yields an empty notFound. -/
theorem c5_amended_witness :
    (getUsers instDupProvider [.uid "u"]).1 =
      .ok { users := [acctDupProvider], notFound := [] } := by
  have h := c5_amended_getUsers_partition instDupProvider [.uid "u"]
    [acctDupProvider] (by decide) rfl
  rw [h]
  rfl

/-- A directory reporting two per-index errors for a single-uid delete. -/
def instOverlongErrors : AuthInstance :=
  { baseInstance with
    directory := { emptyDirectory with
      deleteAccountsRPC := fun _ _ => .ok ⟨[⟨some 0, none⟩, ⟨some 1, none⟩]⟩ } }

/-- C7 counterexample: deleteUsers resolves with a negative successCount
when the directory reports more errors than requested uids, violating the
non-negativity required by the claim. -/
theorem c7_counterexample_negative_successCount :
    (deleteUsers instOverlongErrors ["a"]).1 =
      .ok { failureCount := 2, successCount := -1,
            errors := [(0, ⟨.INTERNAL_ERROR, none⟩),
                       (1, ⟨.INTERNAL_ERROR, none⟩)] } ∧
    (-1 : Int) < 0 :=
  ⟨rfl, by decide⟩

theorem mapBatchDeleteErrors_length (l : List BatchDeleteErrorInfo)
    (errs : List (Nat × FirebaseAuthError))
    (h : mapBatchDeleteErrors l = .ok errs) : errs.length = l.length := by
  induction l generalizing errs with
  | nil =>
    unfold mapBatchDeleteErrors at h
    injection h with h2
    subst h2
    rfl
  | cons info rest ih =>
    unfold mapBatchDeleteErrors at h
    cases hidx : info.index with
    | none =>
      rw [hidx] at h
      simp at h
    | some i =>
      rw [hidx] at h
      cases hm : mapBatchDeleteErrors rest with
      | error e =>
        rw [hm] at h
        simp at h
      | ok tail =>
        rw [hm] at h
        injection h with h2
        subst h2
        simp [ih tail hm]

/-- C7 (amended): every resolving deleteUsers call satisfies
successCount + failureCount = len(uids), failureCount = len(errors) ≥ 0 and
successCount = len(uids) - len(errors); successCount is non-negative
whenever the directory reports at most as many errors as requested uids,
but is negative for a corrupt response carrying more errors than uids. -/
theorem c7_amended_delete_counts (a : AuthInstance) (uids : List String)
    (r : DeleteUsersResult) (h : (deleteUsers a uids).1 = .ok r) :
    r.successCount + r.failureCount = uids.length ∧
    0 ≤ r.failureCount ∧
    r.failureCount = r.errors.length ∧
    r.successCount = (uids.length : Int) - r.errors.length ∧
    ((r.errors.length : Int) ≤ uids.length → 0 ≤ r.successCount) := by
  unfold deleteUsers at h
  cases hh : deleteAccountsHandler a.directory uids true with
  | mk res calls =>
    rw [hh] at h
    cases res with
    | error e => simp at h
    | ok resp =>
      by_cases hemp : resp.errors.isEmpty
      · simp [hemp] at h
        subst h
        refine ⟨by simp, by simp, by simp, by simp, by simp⟩
      · cases hmap : mapBatchDeleteErrors resp.errors with
        | error e => simp [hemp, hmap] at h
        | ok errs =>
          have hlen := mapBatchDeleteErrors_length resp.errors errs hmap
          simp [hemp, hmap] at h
          subst h
          refine ⟨?_, ?_, ?_, ?_, ?_⟩ <;> simp [hlen]

/-- A directory acknowledging a delete with an empty error list. -/
def deleteOkInstance : AuthInstance :=
  { baseInstance with
    directory := { emptyDirectory with
      deleteAccountsRPC := fun _ _ => .ok ⟨[]⟩ } }

def deleteOkResult : DeleteUsersResult := ⟨0, 1, []⟩

/-- Witness for the amended C7: a one-uid delete with no directory errors
satisfies all the count identities. -/
theorem c7_amended_witness :
    deleteOkResult.successCount + deleteOkResult.failureCount =
      (["a"] : List String).length ∧
    0 ≤ deleteOkResult.failureCount ∧
    deleteOkResult.failureCount = deleteOkResult.errors.length ∧
    deleteOkResult.successCount =
      ((["a"] : List String).length : Int) - deleteOkResult.errors.length ∧
    ((deleteOkResult.errors.length : Int) ≤ (["a"] : List String).length →
      0 ≤ deleteOkResult.successCount) :=
  c7_amended_delete_counts deleteOkInstance ["a"] deleteOkResult rfl

theorem mapBatchDeleteErrors_corrupt (l : List BatchDeleteErrorInfo)
    (h : ∃ info ∈ l, info.index = none) :
    mapBatchDeleteErrors l =
      .error ⟨.INTERNAL_ERROR,
        some "Corrupt BatchDeleteAccountsResponse detected"⟩ := by
  induction l with
  | nil => simp at h
  | cons info rest ih =>
    unfold mapBatchDeleteErrors
    rcases h with ⟨j, hj, hidx⟩
    rcases List.mem_cons.mp hj with rfl | hmem
    · rw [hidx]
    · cases hi : info.index with
      | none => rfl
      | some i => rw [ih ⟨j, hmem, hidx⟩]

theorem mapBatchDeleteErrors_allDefined (l : List BatchDeleteErrorInfo)
    (h : ∀ info ∈ l, info.index ≠ none) :
    mapBatchDeleteErrors l =
      .ok (l.map fun info => (info.index.getD 0, errMsgToError info)) := by
  induction l with
  | nil => rfl
  | cons info rest ih =>
    unfold mapBatchDeleteErrors
    cases hi : info.index with
    | none => exact absurd hi (h info (List.mem_cons_self info rest))
    | some i =>
      rw [ih (fun x hx => h x (List.mem_cons_of_mem info hx))]
      simp [hi]

/-- C8: for every deleteUsers call whose directory response carries a
non-empty error list, an entry with an undefined index fails the whole call
with INTERNAL_ERROR; otherwise every entry is mapped to its index together
with a USER_NOT_DISABLED error when the message starts with NOT_DISABLED
and an INTERNAL_ERROR carrying the raw message otherwise. -/
theorem c8_delete_error_mapping (a : AuthInstance) (uids : List String)
    (resp : BatchDeleteAccountsResponse)
    (hlen : 0 < uids.length ∧ uids.length ≤ 1000)
    (hdir : a.directory.deleteAccountsRPC uids true = .ok resp)
    (hne : resp.errors ≠ []) :
    ((∃ info ∈ resp.errors, info.index = none) →
      (deleteUsers a uids).1 =
        .error ⟨.INTERNAL_ERROR,
          some "Corrupt BatchDeleteAccountsResponse detected"⟩) ∧
    ((∀ info ∈ resp.errors, info.index ≠ none) →
      (deleteUsers a uids).1 = .ok
        { failureCount := (resp.errors.length : Int),
          successCount := (uids.length : Int) - (resp.errors.length : Int),
          errors := resp.errors.map (fun info =>
            (info.index.getD 0,
             { code :=
                 match info.message with
                 | some msg =>
                   if msg.startsWith "NOT_DISABLED" then
                     ErrorCode.USER_NOT_DISABLED
                   else ErrorCode.INTERNAL_ERROR
                 | none => ErrorCode.INTERNAL_ERROR,
               message := info.message })) }) := by
  have hgate : ¬(uids.length = 0 ∨ uids.length > 1000) := by omega
  have hempF : resp.errors.isEmpty = false := by
    cases hre : resp.errors with
    | nil => exact absurd hre hne
    | cons x xs => rfl
  constructor
  · intro hbad
    unfold deleteUsers deleteAccountsHandler
    rw [if_neg hgate, hdir]
    simp [hempF, mapBatchDeleteErrors_corrupt resp.errors hbad]
  · intro hgood
    unfold deleteUsers deleteAccountsHandler
    rw [if_neg hgate, hdir]
    simp only [hempF, mapBatchDeleteErrors_allDefined resp.errors hgood]
    simp [errMsgToError]

/-- A directory reporting one error entry whose index is undefined. -/
def corruptDeleteInstance : AuthInstance :=
  { baseInstance with
    directory := { emptyDirectory with
      deleteAccountsRPC := fun _ _ => .ok ⟨[⟨none, some "boom"⟩]⟩ } }

/-- Witness for C8: an error entry with an undefined index fails the whole
call with INTERNAL_ERROR. -/
theorem c8_delete_error_mapping_witness :
    (deleteUsers corruptDeleteInstance ["a"]).1 =
      .error ⟨.INTERNAL_ERROR,
        some "Corrupt BatchDeleteAccountsResponse detected"⟩ :=
  (c8_delete_error_mapping corruptDeleteInstance ["a"]
    ⟨[⟨none, some "boom"⟩]⟩ (by decide) rfl (by decide)).1
    ⟨⟨none, some "boom"⟩, by decide, rfl⟩

/-- Stub collaborators for the tenant validator: both translators accept
everything, no string is a phone number. -/
def trStub : TenantConfigTranslators where
  emailSignInBuildServerRequest := fun _ => .ok ()
  multiFactorBuildServerRequest := fun _ => .ok ()
  isPhoneNumber := fun _ => false

/-- C9 counterexample: toString is a top-level key outside the whitelist,
yet validate resolves, because the JavaScript `in` test of the source also
accepts any key inherited from Object.prototype. -/
theorem c9_counterexample_prototype_key :
    tenantValidate trStub (.object [("toString", .number 1)]) true = .ok () ∧
    "toString" ∉ tenantValidKeys :=
  ⟨rfl, by decide⟩

/-- C9 (amended): tenant options validation rejects, for either value of
the isCreate flag, any options object having a top-level key that is
neither in the whitelist nor an Object.prototype property name, with
INVALID_ARGUMENT naming the offending key; keys named after
Object.prototype members pass the `key in validKeys` test unrejected. -/
theorem c9_amended_tenant_options_whitelist (tr : TenantConfigTranslators)
    (fields : List (String × JsValue)) (createRequest : Bool)
    (h : ∃ kv ∈ fields,
      kv.1 ∉ tenantValidKeys ∧ kv.1 ∉ objectPrototypeKeys) :
    ∃ k, k ∈ fields.map Prod.fst ∧ k ∉ tenantValidKeys ∧
      k ∉ objectPrototypeKeys ∧
      tenantValidate tr (.object fields) createRequest =
        .error ⟨.INVALID_ARGUMENT,
          some ("\"" ++ k ++ "\" is not a valid " ++
            tenantLabel createRequest ++ " parameter.")⟩ := by
  have hsome : (fields.find? fun kv => !(inValidKeys kv.1)).isSome := by
    rw [List.find?_isSome]
    rcases h with ⟨kv, hmem, hk1, hk2⟩
    exact ⟨kv, hmem, by simp [inValidKeys]; exact ⟨hk1, hk2⟩⟩
  obtain ⟨kv0, hfind⟩ := Option.isSome_iff_exists.mp hsome
  have hp := List.find?_some hfind
  have hp2 : kv0.1 ∉ tenantValidKeys ∧ kv0.1 ∉ objectPrototypeKeys := by
    simpa [inValidKeys] using hp
  refine ⟨kv0.1, ?_, hp2.1, hp2.2, ?_⟩
  · exact List.mem_map_of_mem Prod.fst (List.mem_of_find?_eq_some hfind)
  · simp only [tenantValidate]
    rw [hfind]

/-- Witness for the amended C9: validating (on create) an object with the
single bogus key rejects with INVALID_ARGUMENT naming it. -/
theorem c9_amended_witness :
    ∃ k, k ∈ ([("bogusKey", JsValue.number 1)].map Prod.fst) ∧
      k ∉ tenantValidKeys ∧ k ∉ objectPrototypeKeys ∧
      tenantValidate trStub (.object [("bogusKey", .number 1)]) true =
        .error ⟨.INVALID_ARGUMENT,
          some ("\"" ++ k ++ "\" is not a valid " ++ tenantLabel true ++
            " parameter.")⟩ :=
  c9_amended_tenant_options_whitelist trStub [("bogusKey", .number 1)] true
    ⟨("bogusKey", .number 1), by simp, by decide, by decide⟩

/-- C10: createProviderConfig with a null or non-object config and
updateProviderConfig with a null or non-object updatedConfig reject with
INVALID_CONFIG before provider-id classification — never
INVALID_PROVIDER_ID — and issue no directory call. -/
theorem c10_provider_config_null_config (a : AuthInstance)
    (providerId : String) (config : JsValue)
    (h : isNonNullObject config = false) :
    createProviderConfig a config =
      (.error ⟨.INVALID_CONFIG,
        some "Request is missing \"AuthProviderConfig\" configuration."⟩,
       []) ∧
    updateProviderConfig a providerId config =
      (.error ⟨.INVALID_CONFIG,
        some "Request is missing \"UpdateAuthProviderRequest\" configuration."⟩,
       []) := by
  constructor
  · unfold createProviderConfig
    rw [h]
    rfl
  · unfold updateProviderConfig
    rw [h]
    rfl

/-- Witness for C10: a null config with a providerId of neither prefix is
rejected with INVALID_CONFIG and no directory call. -/
theorem c10_provider_config_null_config_witness :
    createProviderConfig baseInstance .null =
      (.error ⟨.INVALID_CONFIG,
        some "Request is missing \"AuthProviderConfig\" configuration."⟩,
       []) ∧
    updateProviderConfig baseInstance "other" .null =
      (.error ⟨.INVALID_CONFIG,
        some "Request is missing \"UpdateAuthProviderRequest\" configuration."⟩,
       []) :=
  c10_provider_config_null_config baseInstance "other" .null rfl

end FirebaseAdminAuth
